import Mathlib

/-!
Shallow embedding of the scrape-orchestration engine of the arxiv-lasso
browser extension (src/extension/background.js).  The mutable module-level
`state` record becomes an explicit `State` value threaded through the
handlers; every externally visible side effect (file save, scheduled
navigation, tab update/removal/creation, status broadcast) becomes an
element of an `Effect` trace returned alongside the new state.  The wall
clock used for search-mode file paths is passed in as a `today` string.
-/

namespace ArxivLasso

/-- Article record as produced by the extractors and accumulated by the
background state (`title`, `url`, `isOA`). -/
structure Article where
  title : String
  url : Option String
  isOA : Bool
deriving DecidableEq

/-- Pagination block of a Nature-search payload.  The extractor sends
`totalResults` and `pageSize`; `background.js` reads `totalResults` with a
`|| 0` default and never reads `pageSize`. -/
structure Pagination where
  totalResults : Option Nat
  pageSize : Option Nat
deriving DecidableEq

/-- Payload delivered by the content script via the `pageScraped` message
(`message.data` in `background.js`).  Fields absent on a given shape are
`Option`/default valued, mirroring `undefined` in the source. -/
structure ScrapedData where
  isNatureSearch : Bool
  isHeartbeat : Bool
  articles : List Article
  journal : String
  publicationDate : String
  htmlContent : String
  nextIssueUrl : Option String
  currentUrl : String
  pagination : Option Pagination
deriving DecidableEq

/-- The module-level `state` object of `background.js` (lines 4-13). -/
structure State where
  isScraping : Bool
  scraperTabId : Option Nat
  currentJournal : Option String
  allArticles : List Article
  natureArticles : List Article
  naturePageCount : Nat
  issueCount : Nat
  lastScrapedTitle : String
deriving DecidableEq

/-- Status snapshot sent by `broadcastStatus` and `handleCheckStatus`. -/
structure Status where
  isScraping : Bool
  journal : Option String
  issueCount : Nat
  articleCount : Nat
  lastScrapedTitle : String
deriving DecidableEq

/-- Structured stand-in for the `content` argument of `saveFile`: the issue
manifest JSON, a raw HTML dump, or the per-search-page JSON. -/
inductive FileContent where
  | manifestJson (journal publicationDate : String) (articles : List Article)
  | html (content : String)
  | searchPageJson (articles : List Article)
deriving DecidableEq

/-- Externally visible side effects of the background handlers. -/
inductive Effect where
  | saveFile (content : FileContent) (filename : String) (mime : String)
  | scheduleNavigate (url : String) (delayMs : Nat)
  | tabUpdate (tabId : Nat) (url : String)
  | tabRemove (tabId : Nat)
  | tabCreate (url : String)
  | broadcast (status : Status)
deriving DecidableEq

/-- Truthiness of a possibly-absent JS string (`null`/`undefined` and the
empty string are falsy). -/
def jsTruthyStr : Option String → Bool
  | none => false
  | some s => !s.isEmpty

/-- Truthiness of a possibly-absent JS number (`null`/`undefined` and `0`
are falsy); used for `state.scraperTabId` checks. -/
def jsTruthyNat : Option Nat → Bool
  | none => false
  | some n => n != 0

/-- JS `String(n).padStart(2, '0')` for a natural number. -/
def pad2 (n : Nat) : String :=
  if n < 10 then "0" ++ toString n else toString n

/-- First `n` characters of a string, as in `s.substring(0, n)`. -/
def strTake (n : Nat) (s : String) : String :=
  String.mk (s.data.take n)

/-- Characters of a string from index `n` on, as in `s.substring(n)`. -/
def strDrop (n : Nat) (s : String) : String :=
  String.mk (s.data.drop n)

/-- Whether the first list is an initial segment of the second. -/
def listStartsWith : List Char → List Char → Bool
  | [], _ => true
  | _ :: _, [] => false
  | p :: ps, c :: cs => p == c && listStartsWith ps cs

/-- Everything strictly before the first occurrence of `pat`; the whole
list when `pat` does not occur.  This is `s.split(pat)[0]` in JS. -/
def takeBeforeMatch (pat : List Char) : List Char → List Char
  | [] => []
  | c :: cs =>
    if listStartsWith pat (c :: cs) then []
    else c :: takeBeforeMatch pat cs

/-- JS `url.split(sep)[0]` for a string separator. -/
def splitFirst (sep : String) (s : String) : String :=
  String.mk (takeBeforeMatch sep.data s.data)

/-- Word characters of the regex `\b` boundary (`[A-Za-z0-9_]`). -/
def isWordChar (c : Char) : Bool :=
  c.isAlphanum || c == '_'

/-- Whether the position after `prev` is a `\b` word boundary relative to a
following word character. -/
def boundaryBefore : Option Char → Bool
  | none => true
  | some c => !isWordChar c

/-- Scan for the first match of the regex `\b(20\d\x7b2\x7d)\b`, carrying
the previous character for the leading word boundary. -/
def findYearAux (prev : Option Char) : List Char → Option String
  | c0 :: c1 :: c2 :: c3 :: rest =>
    if boundaryBefore prev && c0 == '2' && c1 == '0' && c2.isDigit && c3.isDigit
        && (rest.head?.all fun r => !isWordChar r) then
      some (String.mk [c0, c1, c2, c3])
    else
      findYearAux (some c0) (c1 :: c2 :: c3 :: rest)
  | _ => none

/-- JS `pubDate.match(/\b(20\d\x7b2\x7d)\b/)`: the first 4-digit `20xx`
token delimited by word boundaries, if any. -/
def findYear20xx (s : String) : Option String :=
  findYearAux none s.data

/-- Tokenizer splitting on spaces and commas, used by the modelled date
parser. -/
def tokenizeAux (cur : List Char) : List Char → List (List Char)
  | [] => if cur.isEmpty then [] else [cur.reverse]
  | c :: cs =>
    if c == ' ' || c == ',' then
      if cur.isEmpty then tokenizeAux [] cs else cur.reverse :: tokenizeAux [] cs
    else
      tokenizeAux (c :: cur) cs

/-- Tokens of a string, splitting on spaces and commas. -/
def tokenize (s : String) : List String :=
  (tokenizeAux [] s.data).map String.mk

/-- Numeric value of a nonempty all-digit token, as JS number parsing
accepts it inside a date string. -/
def digitsToNat? (s : String) : Option Nat :=
  if !s.data.isEmpty && s.data.all Char.isDigit then
    some (s.data.foldl (fun n c => n * 10 + (c.toNat - '0'.toNat)) 0)
  else
    none

/-- One-based index of a full English month name. -/
def monthIndex? (s : String) : Option Nat :=
  match s with
  | "January" => some 1
  | "February" => some 2
  | "March" => some 3
  | "April" => some 4
  | "May" => some 5
  | "June" => some 6
  | "July" => some 7
  | "August" => some 8
  | "September" => some 9
  | "October" => some 10
  | "November" => some 11
  | "December" => some 12
  | _ => none

/-- Modelled from the spec: the JavaScript `new Date(string)` parser used
by `parsePublicationDate` lives in the host runtime, not in this
repository.  The spec specifies only that full date parsing is attempted
first ("March 3, 2024" succeeds as 2024-03-03) and that free-text strings
such as "Volume 12, 2023 (date unparseable)" fail; this model accepts
exactly the English "MonthName D, YYYY" shape and rejects everything
else. -/
def jsDateParse (s : String) : Option (Nat × Nat × Nat) :=
  match tokenize s with
  | [mon, day, year] =>
    match monthIndex? mon, digitsToNat? day, digitsToNat? year with
    | some m, some d, some y =>
      if 1 ≤ d && d ≤ 31 && 1000 ≤ y then some (y, m, d) else none
    | _, _, _ => none
  | _ => none

/-- Date/path normalization `parsePublicationDate` (background.js lines
215-227): on a successful parse emit `yyyy` + zero-padded month and day;
otherwise emit the first `20xx` token (or `unknown_year`) suffixed with
`_unknown`. -/
def parsePublicationDate (pubDate : String) : String :=
  match jsDateParse pubDate with
  | some (y, m, d) => toString y ++ pad2 m ++ pad2 d
  | none =>
    let year := (findYear20xx pubDate).getD "unknown_year"
    year ++ "_unknown"

/-- Filename of the debug HTML dump written by `saveHtmlForDebug`
(background.js lines 229-236). -/
def debugHtmlFilename (data : ScrapedData) : String :=
  let yyyymmdd := parsePublicationDate data.publicationDate
  "chrome/" ++ data.journal ++ "/" ++ strTake 4 yyyymmdd ++ "/" ++ strDrop 4 yyyymmdd ++ ".html"

/-- Effect of `saveHtmlForDebug`: one HTML file write. -/
def saveHtmlForDebug (data : ScrapedData) : List Effect :=
  [Effect.saveFile (FileContent.html data.htmlContent) (debugHtmlFilename data) "text/html"]

/-- Status snapshot as computed by `broadcastStatus` (background.js lines
26-36) and `handleCheckStatus` (lines 76-84): `naturePageCount ||
issueCount` and `natureArticles.length || allArticles.length`. -/
def statusOf (st : State) : Status :=
  { isScraping := st.isScraping
    journal := st.currentJournal
    issueCount := if st.naturePageCount != 0 then st.naturePageCount else st.issueCount
    articleCount :=
      if st.natureArticles.length != 0 then st.natureArticles.length else st.allArticles.length
    lastScrapedTitle := st.lastScrapedTitle }

/-- Response of the `checkStatus` message (background.js lines 76-84). -/
def handleCheckStatus (st : State) : Status :=
  statusOf st

/-- The `resetState` function (background.js lines 15-23): marks the
session active, installs the journal, and clears every accumulator; it
does not touch `scraperTabId`. -/
def resetState (journal : Option String) (st : State) : State :=
  { st with
    isScraping := true
    currentJournal := journal
    allArticles := []
    natureArticles := []
    naturePageCount := 0
    issueCount := 0
    lastScrapedTitle := "" }

/-- The `stopScraping` function (background.js lines 259-271): clears
`isScraping`, then either removes the tab (manual stop) or merely drops
the reference to it, and finally broadcasts a status snapshot. -/
def stopScraping (shouldCloseTab : Bool) (st : State) : State × List Effect :=
  let st1 : State := { st with isScraping := false }
  let next : State × List Effect :=
    if jsTruthyNat st1.scraperTabId && shouldCloseTab then
      ({ st1 with scraperTabId := none }, [Effect.tabRemove (st1.scraperTabId.getD 0)])
    else if jsTruthyNat st1.scraperTabId then
      ({ st1 with scraperTabId := none }, [])
    else
      (st1, [])
  (next.1, next.2 ++ [Effect.broadcast (statusOf next.1)])

/-- The `startScraping` handler (background.js lines 59-68): always resets
the state, opens a background tab on the requested URL (its id recorded
once the create callback settles), and answers `started`.  There is no
already-active check. -/
def handleStartScraping (url : String) (journal : String) (newTabId : Nat) (st : State) :
    State × List Effect × String :=
  let st1 := resetState (some journal) st
  ({ st1 with scraperTabId := some newTabId }, [Effect.tabCreate url], "started")

/-- The `stopScraping` message handler (background.js lines 70-74): manual
stop, closing the tab, answering `stopped`. -/
def handleStopScraping (st : State) : State × List Effect × String :=
  let r := stopScraping true st
  (r.1, r.2, "stopped")

/-- The `totalResults` a search payload carries, as read by
`handleNatureSearchData`: `(data.pagination || \x7b\x7d).totalResults || 0`. -/
def paginationTotal (data : ScrapedData) : Nat :=
  match data.pagination with
  | none => 0
  | some p => p.totalResults.getD 0

/-- The stop page computed at background.js line 194:
`Math.min(Math.ceil(totalResults / 50), 20)`, with ceiling division over
naturals written `(t + 49) / 50`.  The divisor is the literal 50; the
payload's `pageSize` field is not consulted. -/
def stopAtPage (totalResults : Nat) : Nat :=
  min ((totalResults + 49) / 50) 20

/-- The search-mode handler `handleNatureSearchData` (background.js lines
159-212).  `today` is the wall-clock `yyyymmdd` string the source computes
from `new Date()`. -/
def handleNatureSearchData (today : String) (st : State) (data : ScrapedData) :
    State × List Effect :=
  let st1 : State := { st with naturePageCount := st.naturePageCount + 1 }
  let st2 : State := { st1 with natureArticles := st1.natureArticles ++ data.articles }
  let st3 : State :=
    match data.articles.getLast? with
    | some a => { st2 with lastScrapedTitle := a.title }
    | none => st2
  let fx0 : List Effect := [Effect.broadcast (statusOf st3)]
  let base := "chrome/search/" ++ today ++ "/page" ++ pad2 st3.naturePageCount
  let fx1 : List Effect :=
    [Effect.saveFile (FileContent.html data.htmlContent) (base ++ ".html") "text/html",
     Effect.saveFile (FileContent.searchPageJson data.articles) (base ++ ".json")
       "application/json"]
  let stop := stopAtPage (paginationTotal data)
  if st3.naturePageCount < stop then
    let baseUrl := splitFirst "&page=" data.currentUrl
    let nextUrl := baseUrl ++ "&page=" ++ toString (st3.naturePageCount + 1)
    (st3, fx0 ++ fx1 ++ [Effect.scheduleNavigate nextUrl 2000])
  else
    let r := stopScraping false st3
    (r.1, fx0 ++ fx1 ++ r.2)

/-- The central dispatcher `handleScrapedData` (background.js lines
93-157): drop everything when inactive; search payloads go to
`handleNatureSearchData` (this test precedes the heartbeat test);
heartbeats only dump HTML; otherwise process an issue page, persist
manifest and HTML, and either schedule the next issue or stop. -/
def handleScrapedData (today : String) (st : State) (data : ScrapedData) :
    State × List Effect :=
  if !st.isScraping then
    (st, [])
  else if data.isNatureSearch then
    handleNatureSearchData today st data
  else if data.isHeartbeat then
    (st, saveHtmlForDebug data)
  else
    let st1 : State :=
      { st with issueCount := st.issueCount + 1, allArticles := st.allArticles ++ data.articles }
    let st2 : State :=
      match data.articles.getLast? with
      | some a => { st1 with lastScrapedTitle := a.title }
      | none => st1
    let fx0 : List Effect := [Effect.broadcast (statusOf st2)]
    let yyyymmdd := parsePublicationDate data.publicationDate
    let manifestFilename :=
      "chrome/" ++ data.journal ++ "/" ++ strTake 4 yyyymmdd ++ "/" ++ strDrop 4 yyyymmdd ++ ".json"
    let fx1 : List Effect :=
      [Effect.saveFile (FileContent.manifestJson data.journal data.publicationDate data.articles)
        manifestFilename "application/json"]
    let fx2 := saveHtmlForDebug data
    if jsTruthyStr data.nextIssueUrl then
      (st2, fx0 ++ fx1 ++ fx2 ++ [Effect.scheduleNavigate (data.nextIssueUrl.getD "") 2000])
    else
      let r := stopScraping false st2
      (r.1, fx0 ++ fx1 ++ fx2 ++ r.2)

/-- Body of the issue-mode navigation timer (background.js lines 141-152):
re-check `isScraping` and the tab handle, attempt `tabs.update`, and on a
reported navigation failure call `stopScraping()` (tab kept open). -/
def issueNavTimeout (st : State) (url : String) (navFailed : Bool) : State × List Effect :=
  if st.isScraping && jsTruthyNat st.scraperTabId then
    let fx := [Effect.tabUpdate (st.scraperTabId.getD 0) url]
    if navFailed then
      let r := stopScraping false st
      (r.1, fx ++ r.2)
    else
      (st, fx)
  else
    (st, [])

/-- Body of the search-mode navigation timer (background.js lines
203-207): re-check `isScraping` and the tab handle and attempt
`tabs.update`.  No completion callback is registered, so the `navFailed`
outcome is never observed and the session state is untouched either
way. -/
def searchNavTimeout (st : State) (url : String) (navFailed : Bool) : State × List Effect :=
  if st.isScraping && jsTruthyNat st.scraperTabId then
    (st, [Effect.tabUpdate (st.scraperTabId.getD 0) url])
  else
    (st, [])

/-- Folding a sequence of `pageResult` payloads through the dispatcher,
accumulating the effect trace. -/
def runPageResults (today : String) (st : State) (ds : List ScrapedData) :
    State × List Effect :=
  match ds with
  | [] => (st, [])
  | d :: rest =>
    let r := handleScrapedData today st d
    let r2 := runPageResults today r.1 rest
    (r2.1, r.2 ++ r2.2)

/-- The stop page as the spec words it, for refinement comparison:
`min(ceil(totalResults / pageSize), 20)` using the payload's own
`pageSize`. -/
def stopAtPageSpec (totalResults pageSize : Nat) : Nat :=
  min ((totalResults + pageSize - 1) / pageSize) 20

/-- Fields of a character list split at a separator character, empty
fields kept. -/
def splitOnChar (sep : Char) : List Char → List (List Char)
  | [] => [[]]
  | c :: cs =>
    match splitOnChar sep cs with
    | [] => if c == sep then [[], []] else [[c]]
    | f :: rest => if c == sep then [] :: f :: rest else (c :: f) :: rest

/-- Query parameters joined back with ampersands. -/
def joinAmp : List (List Char) → String
  | [] => ""
  | [p] => String.mk p
  | p :: rest => String.mk p ++ "&" ++ joinAmp rest

/-- Query-parameter stripping as the spec words it, for refinement
comparison: remove every `page=`-keyed parameter from the URL's query
string, keeping all other parameters. -/
def stripPageParamSpec (url : String) : String :=
  match splitOnChar '?' url.data with
  | [base, query] =>
    let params := (splitOnChar '&' query).filter fun p => !listStartsWith "page=".data p
    if params.isEmpty then String.mk base
    else String.mk base ++ "?" ++ joinAmp params
  | _ => url

/-- Whether an effect is a scheduled navigation. -/
def isScheduleNav : Effect → Bool
  | .scheduleNavigate _ _ => true
  | _ => false

/-- Whether an effect closes a tab. -/
def isTabRemove : Effect → Bool
  | .tabRemove _ => true
  | _ => false

/-- Idle state used to exercise the stale-result guard. -/
def c1IdleState : State :=
  { isScraping := false, scraperTabId := none, currentJournal := some "cell",
    allArticles := [⟨"Old", none, false⟩], natureArticles := [], naturePageCount := 0,
    issueCount := 2, lastScrapedTitle := "Old" }

/-- Issue-shaped payload arriving after a stop. -/
def c1Payload : ScrapedData :=
  { isNatureSearch := false, isHeartbeat := false, articles := [⟨"Late", none, true⟩],
    journal := "cell", publicationDate := "March 3, 2024", htmlContent := "<html>",
    nextIssueUrl := some "https://www.cell.com/cell/issue2",
    currentUrl := "https://www.cell.com/cell/issue", pagination := none }

/-- Mid-session search state on page 4 with a live tab. -/
def c2State : State :=
  { isScraping := true, scraperTabId := some 7, currentJournal := some "nature",
    allArticles := [], natureArticles := [], naturePageCount := 4, issueCount := 0,
    lastScrapedTitle := "" }

/-- Search payload whose pagination block reports 100 results in pages of
10. -/
def c2Data : ScrapedData :=
  { isNatureSearch := true, isHeartbeat := false, articles := [], journal := "nature",
    publicationDate := "", htmlContent := "<html>",
    nextIssueUrl := none, currentUrl := "https://www.nature.com/search?q=x",
    pagination := some ⟨some 100, some 10⟩ }

/-- Fresh search session state with a live tab. -/
def c3State : State :=
  { isScraping := true, scraperTabId := some 7, currentJournal := some "nature",
    allArticles := [], natureArticles := [], naturePageCount := 0, issueCount := 0,
    lastScrapedTitle := "" }

/-- Search payload whose current URL carries a `page=` parameter followed
by a further query parameter. -/
def c3Data : ScrapedData :=
  { isNatureSearch := true, isHeartbeat := false, articles := [], journal := "nature",
    publicationDate := "", htmlContent := "<html>",
    nextIssueUrl := none, currentUrl := "https://x.test/search?a=1&page=2&b=3",
    pagination := some ⟨some 500, some 50⟩ }

/-- An in-progress issue-mode session with accumulated work. -/
def c5State : State :=
  { isScraping := true, scraperTabId := some 5, currentJournal := some "cell",
    allArticles := [⟨"A", none, false⟩], natureArticles := [], naturePageCount := 0,
    issueCount := 3, lastScrapedTitle := "A" }

/-- An active search session whose scheduled navigation is about to fail. -/
def c8State : State :=
  { isScraping := true, scraperTabId := some 7, currentJournal := some "nature",
    allArticles := [], natureArticles := [], naturePageCount := 1, issueCount := 0,
    lastScrapedTitle := "" }

/-- Dispatcher drops a single payload when the session is inactive. -/
lemma handleScrapedData_inactive (today : String) (st : State) (d : ScrapedData)
    (h : st.isScraping = false) : handleScrapedData today st d = (st, []) := by
  simp [handleScrapedData, h]

/-- Claim C1: while the session is inactive, processing any sequence of
pageResult payloads leaves every field of the session state unchanged and
writes no file (the effect trace is empty). -/
theorem c1_inactive_noop (today : String) (st : State) (ds : List ScrapedData)
    (h : st.isScraping = false) : runPageResults today st ds = (st, []) := by
  induction ds with
  | nil => simp [runPageResults]
  | cons d rest ih =>
    simp [runPageResults, handleScrapedData_inactive today st d h, ih]

/-- Witness for C1 at a concrete idle state and payload. -/
theorem c1_inactive_noop_witness :
    c1IdleState.isScraping = false ∧
    runPageResults "20251012" c1IdleState [c1Payload, c1Payload] = (c1IdleState, []) :=
  ⟨rfl, c1_inactive_noop "20251012" c1IdleState [c1Payload, c1Payload] rfl⟩

/-- Claim C4: date/path normalization emits the canonical `yyyymmdd` key
when full date parsing succeeds, and otherwise the extracted `20xx` year
suffixed `_unknown`; "March 3, 2024" gives "20240303" and "Volume 12,
2023 (date unparseable)" gives "2023_unknown". -/
theorem c4_date_normalization :
    (∀ s y m d, jsDateParse s = some (y, m, d) →
      parsePublicationDate s = toString y ++ pad2 m ++ pad2 d) ∧
    (∀ s yr, jsDateParse s = none → findYear20xx s = some yr →
      parsePublicationDate s = yr ++ "_unknown") ∧
    parsePublicationDate "March 3, 2024" = "20240303" ∧
    parsePublicationDate "Volume 12, 2023 (date unparseable)" = "2023_unknown" := by
  refine ⟨?_, ?_, ?_, ?_⟩
  · intro s y m d h
    simp [parsePublicationDate, h]
  · intro s yr h1 h2
    simp [parsePublicationDate, h1, h2]
  · decide
  · decide

/-- Witness for C4: both normalization branches at concrete inputs. -/
theorem c4_date_normalization_witness :
    jsDateParse "March 3, 2024" = some (2024, 3, 3) ∧
    parsePublicationDate "March 3, 2024" = toString 2024 ++ pad2 3 ++ pad2 3 ∧
    jsDateParse "Volume 12, 2023 (date unparseable)" = none ∧
    findYear20xx "Volume 12, 2023 (date unparseable)" = some "2023" ∧
    parsePublicationDate "Volume 12, 2023 (date unparseable)" = "2023" ++ "_unknown" :=
  ⟨by decide,
   c4_date_normalization.1 "March 3, 2024" 2024 3 3 (by decide),
   by decide, by decide,
   c4_date_normalization.2.1 "Volume 12, 2023 (date unparseable)" "2023" (by decide) (by decide)⟩

/-- Claim C6: a heartbeat payload processed while active persists only the
raw page HTML; the state (counters, articles, everything) is unchanged and
no navigation effect is emitted. -/
theorem c6_heartbeat_html_only (today : String) (st : State) (data : ScrapedData)
    (hAct : st.isScraping = true) (hNS : data.isNatureSearch = false)
    (hHB : data.isHeartbeat = true) :
    handleScrapedData today st data =
      (st, [Effect.saveFile (FileContent.html data.htmlContent) (debugHtmlFilename data)
              "text/html"]) := by
  simp [handleScrapedData, hAct, hNS, hHB, saveHtmlForDebug]

/-- Witness for C6 at a concrete heartbeat payload. -/
theorem c6_heartbeat_html_only_witness :
    c2State.isScraping = true ∧
    ({ c1Payload with isHeartbeat := true } : ScrapedData).isNatureSearch = false ∧
    ({ c1Payload with isHeartbeat := true } : ScrapedData).isHeartbeat = true ∧
    handleScrapedData "20251012" c2State { c1Payload with isHeartbeat := true } =
      (c2State,
       [Effect.saveFile (FileContent.html ({ c1Payload with isHeartbeat := true } :
          ScrapedData).htmlContent)
          (debugHtmlFilename { c1Payload with isHeartbeat := true }) "text/html"]) :=
  ⟨rfl, rfl, rfl,
   c6_heartbeat_html_only "20251012" c2State { c1Payload with isHeartbeat := true }
     rfl rfl rfl⟩

/-- The stop routine always clears the active flag. -/
lemma stopScraping_isScraping (b : Bool) (st : State) :
    (stopScraping b st).1.isScraping = false := by
  simp only [stopScraping]
  split
  · rfl
  · split <;> rfl

/-- The stop routine touches neither accumulators nor counters. -/
lemma stopScraping_fields (b : Bool) (st : State) :
    (stopScraping b st).1.allArticles = st.allArticles ∧
    (stopScraping b st).1.natureArticles = st.natureArticles ∧
    (stopScraping b st).1.issueCount = st.issueCount ∧
    (stopScraping b st).1.naturePageCount = st.naturePageCount := by
  simp only [stopScraping]
  split
  · exact ⟨rfl, rfl, rfl, rfl⟩
  · split <;> exact ⟨rfl, rfl, rfl, rfl⟩

/-- A non-manual stop closes no tab and schedules no navigation. -/
lemma stopScraping_false_effects (st : State) :
    ∀ e ∈ (stopScraping false st).2, isScheduleNav e = false ∧ isTabRemove e = false := by
  simp only [stopScraping, Bool.and_false]
  split
  · simp_all
  · split <;> simp [isScheduleNav, isTabRemove]

/-- A non-manual stop drops the tab reference when one is live. -/
lemma stopScraping_false_tab (st : State) (tid : Nat) (hTab : st.scraperTabId = some tid)
    (hTid : tid ≠ 0) : (stopScraping false st).1.scraperTabId = none := by
  simp [stopScraping, jsTruthyNat, hTab, hTid]

/-- Search-handler state: articles are appended, the page counter steps by
one, and issue-mode fields are untouched. -/
lemma hnsd_fields (today : String) (st : State) (data : ScrapedData) :
    (handleNatureSearchData today st data).1.allArticles = st.allArticles ∧
    (handleNatureSearchData today st data).1.natureArticles = st.natureArticles ++ data.articles ∧
    (handleNatureSearchData today st data).1.naturePageCount = st.naturePageCount + 1 ∧
    (handleNatureSearchData today st data).1.issueCount = st.issueCount := by
  cases hL : data.articles.getLast? <;>
  · simp only [handleNatureSearchData, hL]
    split
    · simp
    · simp [stopScraping_fields]

/-- Search-handler activity: the session survives exactly when the new
page count is still below the stop page. -/
lemma hnsd_isScraping (today : String) (st : State) (data : ScrapedData) :
    (handleNatureSearchData today st data).1.isScraping =
      if st.naturePageCount + 1 < stopAtPage (paginationTotal data) then st.isScraping
      else false := by
  cases hL : data.articles.getLast? <;>
  · simp only [handleNatureSearchData, hL]
    split
    · simp_all
    · simp_all [stopScraping_isScraping]

/-- Search-handler navigation: below the stop page, the navigation to the
rewritten URL is scheduled. -/
lemma hnsd_nav_mem (today : String) (st : State) (data : ScrapedData)
    (h : st.naturePageCount + 1 < stopAtPage (paginationTotal data)) :
    Effect.scheduleNavigate
      (splitFirst "&page=" data.currentUrl ++ "&page=" ++ toString (st.naturePageCount + 2))
      2000 ∈ (handleNatureSearchData today st data).2 := by
  cases hL : data.articles.getLast? <;>
  · simp only [handleNatureSearchData, hL]
    rw [if_pos (by simpa using h)]
    simp

/-- Search-handler persistence: the page HTML and page JSON writes are in
the effect trace. -/
lemma hnsd_files_mem (today : String) (st : State) (data : ScrapedData) :
    Effect.saveFile (FileContent.html data.htmlContent)
      ("chrome/search/" ++ today ++ "/page" ++ pad2 (st.naturePageCount + 1) ++ ".html")
      "text/html" ∈ (handleNatureSearchData today st data).2 ∧
    Effect.saveFile (FileContent.searchPageJson data.articles)
      ("chrome/search/" ++ today ++ "/page" ++ pad2 (st.naturePageCount + 1) ++ ".json")
      "application/json" ∈ (handleNatureSearchData today st data).2 := by
  cases hL : data.articles.getLast? <;>
  · simp only [handleNatureSearchData, hL]
    split <;> simp

/-- Claim C2, counterexample: a payload reporting 100 results in pages of
10 gives `min(ceil(100/10), 20) = 10` under the spec formula, yet on page
5 the code already stops the session and schedules nothing — the source
divides by the literal 50, not by `pageSize`. -/
theorem c2_stopAtPage_counterexample :
    stopAtPageSpec 100 10 = 10 ∧
    (handleNatureSearchData "20251012" c2State c2Data).1.naturePageCount = 5 ∧
    (5 : Nat) < 10 ∧
    (handleNatureSearchData "20251012" c2State c2Data).1.isScraping = false ∧
    ((handleNatureSearchData "20251012" c2State c2Data).2.all
      fun e => !isScheduleNav e) = true := by
  decide

/-- Claim C2 as amended: the stop page is `min(ceil(totalResults / 50),
20)` — the hard-coded page size 50, with the payload's `pageSize` field
ignored; the session stops exactly when the page count reaches it, and
the two quoted examples hold. -/
theorem c2_stopAtPage_amended (today : String) (st : State) (data : ScrapedData) (t : Nat)
    (hT : paginationTotal data = t) (hAct : st.isScraping = true) :
    stopAtPage t = min ((t + 49) / 50) 20 ∧
    ((handleNatureSearchData today st data).1.isScraping = false ↔
      stopAtPage t ≤ st.naturePageCount + 1) ∧
    stopAtPage 1000 = 20 ∧
    stopAtPage 40 = 1 ∧
    (∀ tr ps1 ps2,
      handleNatureSearchData today st { data with pagination := some ⟨tr, ps1⟩ } =
        handleNatureSearchData today st { data with pagination := some ⟨tr, ps2⟩ }) := by
  refine ⟨rfl, ?_, by decide, by decide, ?_⟩
  · rw [hnsd_isScraping, hT]
    split
    · rw [hAct]
      simp
      omega
    · simp
      omega
  · intro tr ps1 ps2
    simp [handleNatureSearchData, paginationTotal]

/-- Witness for C2's amended theorem at `totalResults = 1000` on a fresh
page. -/
theorem c2_stopAtPage_amended_witness :
    paginationTotal c3Data = 500 ∧
    c3State.isScraping = true ∧
    (stopAtPage 500 = min ((500 + 49) / 50) 20 ∧
     ((handleNatureSearchData "20251012" c3State c3Data).1.isScraping = false ↔
       stopAtPage 500 ≤ c3State.naturePageCount + 1) ∧
     stopAtPage 1000 = 20 ∧
     stopAtPage 40 = 1 ∧
     (∀ tr ps1 ps2,
       handleNatureSearchData "20251012" c3State { c3Data with pagination := some ⟨tr, ps1⟩ } =
         handleNatureSearchData "20251012" c3State { c3Data with pagination := some ⟨tr, ps2⟩ })) :=
  ⟨by decide, rfl, c2_stopAtPage_amended "20251012" c3State c3Data 500 (by decide) rfl⟩

/-- Claim C3, counterexample: for the current URL
`https://x.test/search?a=1&page=2&b=3` the only navigation the code
schedules is to `https://x.test/search?a=1&page=2`, while stripping just
the `page=` parameter keeps `b=3`; the code in fact truncates at the
first `&page=` and so drops every later parameter. -/
theorem c3_nextUrl_counterexample :
    Effect.scheduleNavigate "https://x.test/search?a=1&page=2" 2000
      ∈ (handleNatureSearchData "20251012" c3State c3Data).2 ∧
    ((handleNatureSearchData "20251012" c3State c3Data).2.all fun e =>
      !isScheduleNav e ||
        (e == Effect.scheduleNavigate "https://x.test/search?a=1&page=2" 2000)) = true ∧
    stripPageParamSpec c3Data.currentUrl = "https://x.test/search?a=1&b=3" ∧
    "https://x.test/search?a=1&page=2" ≠ stripPageParamSpec c3Data.currentUrl ++ "&page=2" ∧
    "https://x.test/search?a=1&page=2" ≠ stripPageParamSpec c3Data.currentUrl ++ "?page=2" := by
  decide

/-- Claim C3 as amended: below the stop page the next URL is the current
URL truncated at the first occurrence of `&page=` (everything from there
on is discarded, and a `page=` introduced by `?` is not stripped) with
`&page=count+1` appended, and the session stays active. -/
theorem c3_nextUrl_amended (today : String) (st : State) (data : ScrapedData)
    (h : st.naturePageCount + 1 < stopAtPage (paginationTotal data)) :
    Effect.scheduleNavigate
      (splitFirst "&page=" data.currentUrl ++ "&page=" ++ toString (st.naturePageCount + 2))
      2000 ∈ (handleNatureSearchData today st data).2 ∧
    (handleNatureSearchData today st data).1.isScraping = st.isScraping := by
  refine ⟨hnsd_nav_mem today st data h, ?_⟩
  rw [hnsd_isScraping, if_pos h]

/-- Witness for C3's amended theorem on page 1 of a 500-result search. -/
theorem c3_nextUrl_amended_witness :
    c3State.naturePageCount + 1 < stopAtPage (paginationTotal c3Data) ∧
    (Effect.scheduleNavigate
       (splitFirst "&page=" c3Data.currentUrl ++ "&page=" ++ toString (c3State.naturePageCount + 2))
       2000 ∈ (handleNatureSearchData "20251012" c3State c3Data).2 ∧
     (handleNatureSearchData "20251012" c3State c3Data).1.isScraping = c3State.isScraping) :=
  ⟨by decide, c3_nextUrl_amended "20251012" c3State c3Data (by decide)⟩

/-- Claim C5, counterexample: with a session already active, a second
start is answered `started`, not rejected, and the in-progress session's
state is overwritten (journal replaced, accumulators cleared, counters
zeroed). -/
theorem c5_start_counterexample :
    c5State.isScraping = true ∧
    (handleStartScraping "https://www.nature.com/search" "nature" 9 c5State).2.2 = "started" ∧
    (handleStartScraping "https://www.nature.com/search" "nature" 9 c5State).1 ≠ c5State ∧
    (handleStartScraping "https://www.nature.com/search" "nature" 9 c5State).1.issueCount = 0 ∧
    (handleStartScraping "https://www.nature.com/search" "nature" 9 c5State).1.allArticles = [] ∧
    (handleStartScraping "https://www.nature.com/search" "nature" 9 c5State).1.currentJournal
      = some "nature" := by
  decide

/-- Claim C5 as amended: the source has no AlreadyActive rejection —
starting while a session is active unconditionally resets the state to a
fresh session on the new journal, opens a new tab, and answers
`started`, orphaning the previous session. -/
theorem c5_start_amended (url journal : String) (newTabId : Nat) (st : State)
    (hAct : st.isScraping = true) :
    (handleStartScraping url journal newTabId st).2.2 = "started" ∧
    (handleStartScraping url journal newTabId st).1 =
      { isScraping := true, scraperTabId := some newTabId, currentJournal := some journal,
        allArticles := [], natureArticles := [], naturePageCount := 0, issueCount := 0,
        lastScrapedTitle := "" } ∧
    Effect.tabCreate url ∈ (handleStartScraping url journal newTabId st).2.1 := by
  refine ⟨rfl, rfl, ?_⟩
  simp [handleStartScraping]

/-- Witness for C5's amended theorem on a concrete active session. -/
theorem c5_start_amended_witness :
    c5State.isScraping = true ∧
    ((handleStartScraping "https://www.nature.com/search" "nature" 9 c5State).2.2 = "started" ∧
     (handleStartScraping "https://www.nature.com/search" "nature" 9 c5State).1 =
       { isScraping := true, scraperTabId := some 9, currentJournal := some "nature",
         allArticles := [], natureArticles := [], naturePageCount := 0, issueCount := 0,
         lastScrapedTitle := "" } ∧
     Effect.tabCreate "https://www.nature.com/search"
       ∈ (handleStartScraping "https://www.nature.com/search" "nature" 9 c5State).2.1) :=
  ⟨rfl, c5_start_amended "https://www.nature.com/search" "nature" 9 c5State rfl⟩

/-- Claim C7: an issue payload with no next-issue URL, processed while
active with a live tab, deactivates the session in that one step,
schedules no navigation, and detaches the tab (reference dropped) without
closing it (no tab-remove effect). -/
theorem c7_null_next_stops (today : String) (st : State) (data : ScrapedData) (tid : Nat)
    (hAct : st.isScraping = true) (hNS : data.isNatureSearch = false)
    (hHB : data.isHeartbeat = false) (hNext : data.nextIssueUrl = none)
    (hTab : st.scraperTabId = some tid) (hTid : tid ≠ 0) :
    (handleScrapedData today st data).1.isScraping = false ∧
    (handleScrapedData today st data).1.scraperTabId = none ∧
    ((handleScrapedData today st data).2.all
      fun e => !isScheduleNav e && !isTabRemove e) = true := by
  cases hL : data.articles.getLast? <;>
  · simp only [handleScrapedData, hAct, hNS, hHB, hNext, hL, Bool.not_true, Bool.false_eq_true,
      if_false, jsTruthyStr]
    refine ⟨stopScraping_isScraping false _, stopScraping_false_tab _ tid hTab hTid, ?_⟩
    simp only [saveHtmlForDebug, List.all_append, List.all_cons, List.all_nil, List.all_eq_true,
      isScheduleNav, isTabRemove, Bool.and_true, Bool.true_and, Bool.not_false, Bool.and_self]
    intro x hx
    have hse := stopScraping_false_effects _ x hx
    simp only [isScheduleNav, isTabRemove] at hse
    simp [hse.1, hse.2]

/-- Witness for C7 on a concrete issue payload with no successor. -/
theorem c7_null_next_stops_witness :
    c5State.isScraping = true ∧
    ({ c1Payload with nextIssueUrl := none } : ScrapedData).isNatureSearch = false ∧
    ({ c1Payload with nextIssueUrl := none } : ScrapedData).isHeartbeat = false ∧
    ({ c1Payload with nextIssueUrl := none } : ScrapedData).nextIssueUrl = none ∧
    c5State.scraperTabId = some 5 ∧
    (5 : Nat) ≠ 0 ∧
    ((handleScrapedData "20251012" c5State { c1Payload with nextIssueUrl := none }).1.isScraping
        = false ∧
     (handleScrapedData "20251012" c5State { c1Payload with nextIssueUrl := none }).1.scraperTabId
        = none ∧
     ((handleScrapedData "20251012" c5State { c1Payload with nextIssueUrl := none }).2.all
       fun e => !isScheduleNav e && !isTabRemove e) = true) :=
  ⟨rfl, rfl, rfl, rfl, rfl, by decide,
   c7_null_next_stops "20251012" c5State { c1Payload with nextIssueUrl := none } 5
     rfl rfl rfl rfl rfl (by decide)⟩

/-- Claim C8, counterexample: a search-mode navigation failure does not
stop the session — the source registers no completion callback on the
search-mode tab update, so the state survives a failed load untouched and
still active. -/
theorem c8_navfail_counterexample :
    c8State.isScraping = true ∧
    (searchNavTimeout c8State "https://www.nature.com/search?q=x&page=2" true).1 = c8State ∧
    (searchNavTimeout c8State "https://www.nature.com/search?q=x&page=2" true).1.isScraping
      = true := by
  decide

/-- Claim C8 as amended: in issue mode a reported navigation failure
stops the session immediately without closing the tab, while in search
mode no failure callback exists, so the outcome of the load never changes
the state. -/
theorem c8_navfail_amended (st : State) (url : String)
    (hAct : st.isScraping = true) (hTab : jsTruthyNat st.scraperTabId = true) :
    (issueNavTimeout st url true).1.isScraping = false ∧
    ((issueNavTimeout st url true).2.all fun e => !isTabRemove e) = true ∧
    (∀ f1 f2 : Bool, searchNavTimeout st url f1 = searchNavTimeout st url f2) ∧
    (searchNavTimeout st url true).1 = st := by
  have hcond : (st.isScraping && jsTruthyNat st.scraperTabId) = true := by
    rw [hAct, hTab]
    rfl
  refine ⟨?_, ?_, fun f1 f2 => rfl, ?_⟩
  · simp only [issueNavTimeout, hcond]
    simp [stopScraping_isScraping]
  · simp only [issueNavTimeout, hcond]
    simp only [if_true, List.all_eq_true, List.mem_append, List.mem_singleton]
    intro e he
    rcases he with h1 | h1
    · subst h1; rfl
    · simp [(stopScraping_false_effects st e h1).2]
  · simp only [searchNavTimeout]
    split <;> rfl

/-- Witness for C8's amended theorem on an active search session. -/
theorem c8_navfail_amended_witness :
    c8State.isScraping = true ∧
    jsTruthyNat c8State.scraperTabId = true ∧
    ((issueNavTimeout c8State "https://u.test" true).1.isScraping = false ∧
     ((issueNavTimeout c8State "https://u.test" true).2.all fun e => !isTabRemove e) = true ∧
     (∀ f1 f2 : Bool,
       searchNavTimeout c8State "https://u.test" f1 = searchNavTimeout c8State "https://u.test" f2) ∧
     (searchNavTimeout c8State "https://u.test" true).1 = c8State) :=
  ⟨rfl, by decide, c8_navfail_amended c8State "https://u.test" rfl (by decide)⟩

/-- Dispatcher state: articles only ever get appended and neither page
counter decreases, in every branch. -/
lemma hsd_fields (today : String) (st : State) (data : ScrapedData) :
    (∃ t1, (handleScrapedData today st data).1.allArticles = st.allArticles ++ t1) ∧
    (∃ t2, (handleScrapedData today st data).1.natureArticles = st.natureArticles ++ t2) ∧
    st.issueCount ≤ (handleScrapedData today st data).1.issueCount ∧
    st.naturePageCount ≤ (handleScrapedData today st data).1.naturePageCount := by
  by_cases hA : st.isScraping = true
  case neg =>
    rw [handleScrapedData_inactive today st data (by simpa using hA)]
    exact ⟨⟨[], by simp⟩, ⟨[], by simp⟩, Nat.le_refl _, Nat.le_refl _⟩
  case pos =>
  by_cases hNS : data.isNatureSearch = true
  case pos =>
    have hf := hnsd_fields today st data
    have hd : handleScrapedData today st data = handleNatureSearchData today st data := by
      simp [handleScrapedData, hA, hNS]
    rw [hd]
    exact ⟨⟨[], by simp [hf.1]⟩, ⟨data.articles, hf.2.1⟩, by simp [hf.2.2.2],
      by simp [hf.2.2.1]⟩
  case neg =>
  by_cases hHB : data.isHeartbeat = true
  case pos =>
    have hd : handleScrapedData today st data = (st, saveHtmlForDebug data) := by
      simp [handleScrapedData, hA, hNS, hHB]
    rw [hd]
    exact ⟨⟨[], by simp⟩, ⟨[], by simp⟩, Nat.le_refl _, Nat.le_refl _⟩
  case neg =>
    cases hL : data.articles.getLast? <;>
    by_cases hN : jsTruthyStr data.nextIssueUrl = true <;>
    · simp only [handleScrapedData, hA, hNS, hHB, hL, hN, Bool.not_true, Bool.false_eq_true,
        if_false, if_true, ite_true, ite_false]
      exact ⟨⟨data.articles, by simp [stopScraping_fields]⟩,
        ⟨[], by simp [stopScraping_fields]⟩,
        by simp [stopScraping_fields], by simp [stopScraping_fields]⟩

/-- Claim C9: session start clears both article accumulators and both
counters; processing a payload only ever appends to the accumulators and
never decreases a counter; and a stop leaves accumulators and counters
untouched (the status query is a read-only projection by construction). -/
theorem c9_append_only (today : String) (j : Option String) (st : State) (data : ScrapedData)
    (b : Bool) :
    (resetState j st).allArticles = [] ∧
    (resetState j st).natureArticles = [] ∧
    (resetState j st).issueCount = 0 ∧
    (resetState j st).naturePageCount = 0 ∧
    (∃ t1, (handleScrapedData today st data).1.allArticles = st.allArticles ++ t1) ∧
    (∃ t2, (handleScrapedData today st data).1.natureArticles = st.natureArticles ++ t2) ∧
    st.issueCount ≤ (handleScrapedData today st data).1.issueCount ∧
    st.naturePageCount ≤ (handleScrapedData today st data).1.naturePageCount ∧
    (stopScraping b st).1.allArticles = st.allArticles ∧
    (stopScraping b st).1.natureArticles = st.natureArticles ∧
    (stopScraping b st).1.issueCount = st.issueCount ∧
    (stopScraping b st).1.naturePageCount = st.naturePageCount := by
  obtain ⟨s1, s2, s3, s4⟩ := stopScraping_fields b st
  obtain ⟨f1, f2, f3, f4⟩ := hsd_fields today st data
  exact ⟨rfl, rfl, rfl, rfl, f1, f2, f3, f4, s1, s2, s3, s4⟩

/-- Claim C10: a payload flagged `isNatureSearch` is dispatched to the
search handler whenever the session is active — the search-shape test
precedes the heartbeat test, so this holds even for payloads also
carrying the heartbeat flag: the search page counter steps, articles are
appended, the page HTML and JSON are persisted, and when the new page
count is below the stop page a navigation is scheduled. -/
theorem c10_search_dispatch (today : String) (st : State) (data : ScrapedData)
    (hAct : st.isScraping = true) (hNS : data.isNatureSearch = true) :
    handleScrapedData today st data = handleNatureSearchData today st data ∧
    (handleNatureSearchData today st data).1.naturePageCount = st.naturePageCount + 1 ∧
    (handleNatureSearchData today st data).1.natureArticles
      = st.natureArticles ++ data.articles ∧
    Effect.saveFile (FileContent.html data.htmlContent)
      ("chrome/search/" ++ today ++ "/page" ++ pad2 (st.naturePageCount + 1) ++ ".html")
      "text/html" ∈ (handleNatureSearchData today st data).2 ∧
    Effect.saveFile (FileContent.searchPageJson data.articles)
      ("chrome/search/" ++ today ++ "/page" ++ pad2 (st.naturePageCount + 1) ++ ".json")
      "application/json" ∈ (handleNatureSearchData today st data).2 ∧
    (st.naturePageCount + 1 < stopAtPage (paginationTotal data) →
      Effect.scheduleNavigate
        (splitFirst "&page=" data.currentUrl ++ "&page=" ++ toString (st.naturePageCount + 2))
        2000 ∈ (handleScrapedData today st data).2) := by
  have hd : handleScrapedData today st data = handleNatureSearchData today st data := by
    simp [handleScrapedData, hAct, hNS]
  refine ⟨hd, (hnsd_fields today st data).2.2.1, (hnsd_fields today st data).2.1,
    (hnsd_files_mem today st data).1, (hnsd_files_mem today st data).2, ?_⟩
  intro h
  rw [hd]
  exact hnsd_nav_mem today st data h

/-- Witness for C10 on an active session and a payload that carries both
the search discriminator and the heartbeat flag; the navigation hypothesis
also holds, so a navigation is scheduled for it. -/
theorem c10_search_dispatch_witness :
    c3State.isScraping = true ∧
    ({ c3Data with isHeartbeat := true } : ScrapedData).isNatureSearch = true ∧
    ({ c3Data with isHeartbeat := true } : ScrapedData).isHeartbeat = true ∧
    c3State.naturePageCount + 1
      < stopAtPage (paginationTotal { c3Data with isHeartbeat := true }) ∧
    (handleScrapedData "20251012" c3State { c3Data with isHeartbeat := true }
        = handleNatureSearchData "20251012" c3State { c3Data with isHeartbeat := true } ∧
     (handleNatureSearchData "20251012" c3State
        { c3Data with isHeartbeat := true }).1.naturePageCount
        = c3State.naturePageCount + 1 ∧
     (handleNatureSearchData "20251012" c3State
        { c3Data with isHeartbeat := true }).1.natureArticles
        = c3State.natureArticles ++ ({ c3Data with isHeartbeat := true } : ScrapedData).articles ∧
     Effect.saveFile
       (FileContent.html ({ c3Data with isHeartbeat := true } : ScrapedData).htmlContent)
       ("chrome/search/" ++ "20251012" ++ "/page" ++ pad2 (c3State.naturePageCount + 1)
         ++ ".html") "text/html"
       ∈ (handleNatureSearchData "20251012" c3State { c3Data with isHeartbeat := true }).2 ∧
     Effect.saveFile
       (FileContent.searchPageJson ({ c3Data with isHeartbeat := true } : ScrapedData).articles)
       ("chrome/search/" ++ "20251012" ++ "/page" ++ pad2 (c3State.naturePageCount + 1)
         ++ ".json") "application/json"
       ∈ (handleNatureSearchData "20251012" c3State { c3Data with isHeartbeat := true }).2 ∧
     (c3State.naturePageCount + 1
         < stopAtPage (paginationTotal { c3Data with isHeartbeat := true }) →
       Effect.scheduleNavigate
         (splitFirst "&page=" ({ c3Data with isHeartbeat := true } : ScrapedData).currentUrl
           ++ "&page=" ++ toString (c3State.naturePageCount + 2)) 2000
         ∈ (handleScrapedData "20251012" c3State { c3Data with isHeartbeat := true }).2)) :=
  ⟨rfl, rfl, rfl, by decide,
   c10_search_dispatch "20251012" c3State { c3Data with isHeartbeat := true } rfl rfl⟩

end ArxivLasso
